import Mathlib

/-!
Verification development for `src/models/wide-resnet.py` (class `WideRes22`).

The Python file builds, once, a static TensorFlow computation graph: input
placeholders, a stem convolution, three residual groups, a final batch-norm
plus ReLU, average pooling, flattening, a dense classifier, and loss/accuracy
nodes.  We embed graph construction shallowly:

* a `Tensor` is the expression tree of graph nodes, mirroring exactly the
  `tf.*` calls the source makes;
* construction also produces a `List Event` trace recording, in program
  order, every `print` the constructor performs, every variable it creates
  (`Event.varE`) and every graph operation it adds (`Event.opE`).

Real numbers appearing in the source (`decay=0.9`, `stddev=0.1`,
`l2_reg_lambda`) are modelled as rationals.  The name-scope strings are the
ones the source builds with `"%s-%s_conv_k" % (group_id, block_num + 1)`.
-/

namespace TFModels

/-- Variable initializer, as passed to `tf.get_variable` or used by the
framework layers (`tf.contrib.layers.batch_norm`, `tf.layers.dense`). -/
inductive Init where
  | truncatedNormal (stddev : ℚ)
  | glorotUniform
  | zeros
  | ones
deriving DecidableEq, Repr

/-- Role of a created variable in the graph. -/
inductive VarKind where
  | convWeight
  | bnBeta
  | bnGamma
  | bnMovingMean
  | bnMovingVariance
  | denseKernel
  | denseBias
deriving DecidableEq, Repr

/-- A variable created during graph construction.  `shape` is `none` when the
static shape is not modelled (the dense kernel's flattened input dimension). -/
structure VarSpec where
  scope : String
  name : String
  shape : Option (List Nat)
  init : Init
  kind : VarKind
  trainable : Bool
deriving DecidableEq, Repr

/-- Graph nodes, one constructor per tensorflow/tflearn operation the source
uses.  `l2SumVars vs` stands for `tf.add_n([tf.nn.l2_loss(v) for v in vs])`
(line 74), keeping the inductive non-nested. -/
inductive Tensor where
  | placeholder (name : String) (shape : List (Option Nat))
  | conv2d (input : Tensor) (weight : VarSpec) (strides : List Nat) (padding : String)
  | batchNorm (input : Tensor) (decay : ℚ) (center : Bool) (scale : Bool)
      (isTraining : Tensor) (zeroDebiasMovingMean : Bool)
  | relu (input : Tensor)
  | add (a : Tensor) (b : Tensor)
  | avgPool2d (input : Tensor) (kernelSize : Nat) (strides : List Nat) (padding : String)
  | flatten (input : Tensor)
  | dense (input : Tensor) (useBias : Bool) (units : Nat) (kernel : VarSpec) (bias : VarSpec)
  | argmax (input : Tensor) (axis : Nat)
  | softmaxCrossEntropyWithLogits (logits : Tensor) (labels : Tensor)
  | l2SumVars (vars : List VarSpec)
  | reduceMean (input : Tensor)
  | mulScalar (c : ℚ) (t : Tensor)
  | equal (a : Tensor) (b : Tensor)
  | cast (t : Tensor) (dtype : String)
deriving DecidableEq, Repr

/-- Static channel dimension of a tensor: `int(np.shape(t)[-1])` as used at
line 101 of the source.  Nodes on which the source never calls it map to 0. -/
def lastDim : Tensor → Nat
  | .placeholder _ shape => (shape.getLastD none).getD 0
  | .conv2d _ w _ _ => (w.shape.getD []).getLastD 0
  | .batchNorm t _ _ _ _ _ => lastDim t
  | .relu t => lastDim t
  | .add a _ => lastDim a
  | .avgPool2d t _ _ _ => lastDim t
  | .flatten t => lastDim t
  | .dense _ _ units _ _ => units
  | _ => 0

/-- Graph operations recorded in the construction trace. -/
inductive OpKind where
  | placeholderOp (name : String) (shape : List (Option Nat))
  | conv2dOp (scope : String) (strides : List Nat) (padding : String)
  | batchNormOp (scope : String) (decay : ℚ) (center : Bool) (scale : Bool)
      (zeroDebiasMovingMean : Bool)
  | reluOp (scope : String)
  | addOp (scope : String)
  | avgPoolOp (kernelSize : Nat) (strides : List Nat) (padding : String)
  | flattenOp
  | denseOp (units : Nat) (useBias : Bool)
  | argmaxOp (axis : Nat)
  | addNOp
  | softmaxCEOp
  | reduceMeanOp (scope : String)
  | mulScalarOp (scope : String)
  | equalOp (scope : String)
  | castOp (scope : String)
deriving DecidableEq, Repr

/-- One entry of the construction trace: a console `print`, a created
variable, or a graph operation. -/
inductive Event where
  | printE (msg : String)
  | varE (v : VarSpec)
  | opE (o : OpKind)
deriving DecidableEq, Repr

/-- Model of `tf.contrib.layers.batch_norm(x, decay=0.9, center=True,
scale=True, is_training=train_flag, zero_debias_moving_mean=True)`, the call
shape shared by lines 60, 104 and 112 of the source.  With `center` and
`scale` set it creates trainable `beta`/`gamma` and non-trainable moving
statistics over the channel dimension. -/
def tfBatchNorm (sc : String) (x : Tensor) (trainFlag : Tensor) : Tensor × List Event :=
  let ch := lastDim x
  (Tensor.batchNorm x (9/10) true true trainFlag true,
   [Event.varE ⟨sc, "beta", some [ch], Init.zeros, VarKind.bnBeta, true⟩,
    Event.varE ⟨sc, "gamma", some [ch], Init.ones, VarKind.bnGamma, true⟩,
    Event.varE ⟨sc, "moving_mean", some [ch], Init.zeros, VarKind.bnMovingMean, false⟩,
    Event.varE ⟨sc, "moving_variance", some [ch], Init.ones, VarKind.bnMovingVariance, false⟩,
    Event.opE (OpKind.batchNormOp sc (9/10) true true true)])

/-- Model of `tf.get_variable(shape=shape,
initializer=tf.truncated_normal_initializer(stddev=0.1), name="weight")`, the
call shape shared by lines 45, 107, 115 and 122 of the source. -/
def tfGetVariableConv (sc : String) (shape : List Nat) : VarSpec × List Event :=
  let v : VarSpec := ⟨sc, "weight", some shape, Init.truncatedNormal (1/10),
    VarKind.convWeight, true⟩
  (v, [Event.varE v])

/-- Model of `tf.nn.conv2d(x, w, strides=strides, padding=padding, name="conv")`. -/
def tfConv2d (sc : String) (x : Tensor) (w : VarSpec) (strides : List Nat)
    (padding : String) : Tensor × List Event :=
  (Tensor.conv2d x w strides padding, [Event.opE (OpKind.conv2dOp sc strides padding)])

/-- The name scope `"%s-%s_conv_k" % (group_id, block_num + 1)` used at
lines 103, 111 and 120 of the source. -/
def blockScope (group_id block_num : Nat) (k : String) : String :=
  toString group_id ++ "-" ++ toString (block_num + 1) ++ "_conv_" ++ k

/-- One iteration of the `for block_num in range(n_blocks)` loop of
`res_group` (source lines 100-128).  Returns the new `shortcut` tensor, the
value of the (Python-mutable) `stride` variable after the iteration, and the
events built, in program order. -/
def resBlockStep (trainFlag : Tensor) (shortcut : Tensor) (stride : Nat)
    (out_channels : Nat) (group_id : Nat) (block_num : Nat) :
    Tensor × Nat × List Event :=
  let in_dim := lastDim shortcut
  let sc1 := blockScope group_id block_num "1"
  let bn1 := tfBatchNorm sc1 shortcut trainFlag
  let out_1 := Tensor.relu bn1.1
  let w1 := tfGetVariableConv sc1 [3, 3, in_dim, out_channels]
  let c1 := tfConv2d sc1 out_1 w1.1 [1, stride, stride, 1] "SAME"
  let conv_1 := c1.1
  let sc2 := blockScope group_id block_num "2"
  let bn2 := tfBatchNorm sc2 conv_1 trainFlag
  let out_2 := Tensor.relu bn2.1
  let w2 := tfGetVariableConv sc2 [3, 3, out_channels, out_channels]
  let c2 := tfConv2d sc2 out_2 w2.1 [1, 1, 1, 1] "SAME"
  let conv_2 := c2.1
  let common := bn1.2 ++ [Event.opE (OpKind.reluOp sc1)] ++ w1.2 ++ c1.2
    ++ bn2.2 ++ [Event.opE (OpKind.reluOp sc2)] ++ w2.2 ++ c2.2
  if block_num = 0 then
    let sc3 := blockScope group_id block_num "3"
    let w3 := tfGetVariableConv sc3 [1, 1, in_dim, out_channels]
    let c3 := tfConv2d sc3 out_1 w3.1 [1, stride, stride, 1] "VALID"
    (Tensor.add conv_2 c3.1, 1,
     common ++ w3.2 ++ c3.2 ++ [Event.opE (OpKind.addOp sc3)])
  else
    (Tensor.add conv_2 shortcut, stride,
     common ++ [Event.opE (OpKind.addOp "")])

/-- The `res_group` loop, recursing on the number of remaining iterations;
`block_num` is the index of the next iteration and `stride` the current value
of the mutable `stride` variable. -/
def resGroupAux (trainFlag : Tensor) (shortcut : Tensor) (stride : Nat)
    (out_channels : Nat) (group_id : Nat) (block_num : Nat) :
    Nat → Tensor × List Event
  | 0 => (shortcut, [])
  | r + 1 =>
    let s := resBlockStep trainFlag shortcut stride out_channels group_id block_num
    let rest := resGroupAux trainFlag s.1 s.2.1 out_channels group_id (block_num + 1) r
    (rest.1, s.2.2 ++ rest.2)

/-- Model of `WideRes22.res_group` (source lines 83-130): stacks `n_blocks`
residual blocks over `input_x`, returning the output tensor and the events
built. -/
def res_group (trainFlag : Tensor) (input_x : Tensor) (stride : Nat)
    (out_channels : Nat) (n_blocks : Nat) (group_id : Nat) : Tensor × List Event :=
  resGroupAux trainFlag input_x stride out_channels group_id 0 n_blocks

/-- Fields the constructor stores on `self`. -/
structure WideRes22 where
  input_x : Tensor
  input_y : Tensor
  train_flag : Tensor
  out : Tensor
  scores : Tensor
  predictions : Tensor
  loss : Tensor
  accuracy : Tensor
deriving DecidableEq, Repr

/-- Model of `tf.trainable_variables()`: the trainable variables created so
far, in creation order. -/
def trainableVariables (g : List Event) : List VarSpec :=
  g.filterMap fun e => match e with
    | .varE v => if v.trainable then some v else none
    | _ => none

/-- Model of `WideRes22.__init__` (source lines 19-81).  `out_channels` is the
tuple argument, indexed as in the source; `learning_rate` is accepted and,
as in the source, never used; `l2_reg_lambda` defaults to `0.` in the source.
Returns the constructed object and the full construction trace (prints,
variables, graph operations) in program order. -/
def wideRes22Init (img_dim n_classes in_channels : Nat) (out_channels : List Nat)
    (width_mult n_blocks : Nat) (learning_rate l2_reg_lambda : ℚ) :
    WideRes22 × List Event :=
  let input_x := Tensor.placeholder "input_x"
    [none, some img_dim, some img_dim, some in_channels]
  let input_y := Tensor.placeholder "input_y" [none, some n_classes]
  let train_flag := Tensor.placeholder "train_flag" []
  let g0 : List Event :=
    [Event.printE "Initialising placeholders ...",
     Event.opE (OpKind.placeholderOp "input_x"
       [none, some img_dim, some img_dim, some in_channels]),
     Event.opE (OpKind.placeholderOp "input_y" [none, some n_classes]),
     Event.opE (OpKind.placeholderOp "train_flag" [])]
  let w0 := tfGetVariableConv "conv_0" [3, 3, in_channels, out_channels.getD 0 0]
  let c0 := tfConv2d "conv_0" input_x w0.1 [1, 1, 1, 1] "SAME"
  let g1 := g0 ++ w0.2 ++ c0.2
  let r1 := res_group train_flag c0.1 1 (out_channels.getD 0 0 * width_mult) n_blocks 1
  let g2 := g1 ++ [Event.printE "Computing Residual Group 1 ..."] ++ r1.2
  let r2 := res_group train_flag r1.1 2 (out_channels.getD 1 0 * width_mult) n_blocks 2
  let g3 := g2 ++ [Event.printE "Computing Residual Group 2 ..."] ++ r2.2
  let r3 := res_group train_flag r2.1 2 (out_channels.getD 2 0 * width_mult) n_blocks 3
  let g4 := g3 ++ [Event.printE "Computing Residual Group 3 ..."] ++ r3.2
  let bnF := tfBatchNorm "" r3.1 train_flag
  let out4 := Tensor.relu bnF.1
  let g5 := g4 ++ bnF.2 ++ [Event.opE (OpKind.reluOp "")]
  let out5 := Tensor.avgPool2d out4 8 [1, 1, 1, 1] "valid"
  let out6 := Tensor.flatten out5
  let g6 := g5 ++ [Event.printE "Pooling outputs and calculating scores ...",
    Event.opE (OpKind.avgPoolOp 8 [1, 1, 1, 1] "valid"), Event.opE OpKind.flattenOp]
  let kernel : VarSpec := ⟨"scores", "kernel", none, Init.glorotUniform,
    VarKind.denseKernel, true⟩
  let bias : VarSpec := ⟨"scores", "bias", some [n_classes], Init.zeros,
    VarKind.denseBias, true⟩
  let scores := Tensor.dense out6 true n_classes kernel bias
  let predictions := Tensor.argmax scores 1
  let g7 := g6 ++ [Event.varE kernel, Event.varE bias,
    Event.opE (OpKind.denseOp n_classes true), Event.opE (OpKind.argmaxOp 1)]
  let l2_loss := Tensor.l2SumVars (trainableVariables g7)
  let losses := Tensor.softmaxCrossEntropyWithLogits scores input_y
  let loss := Tensor.add (Tensor.reduceMean losses) (Tensor.mulScalar l2_reg_lambda l2_loss)
  let g8 := g7 ++ [Event.opE OpKind.addNOp, Event.opE OpKind.softmaxCEOp,
    Event.opE (OpKind.reduceMeanOp "loss"), Event.opE (OpKind.mulScalarOp "loss"),
    Event.opE (OpKind.addOp "loss")]
  let correct_predictions := Tensor.equal predictions (Tensor.argmax input_y 1)
  let accuracy := Tensor.reduceMean (Tensor.cast correct_predictions "float")
  let g9 := g8 ++ [Event.opE (OpKind.argmaxOp 1), Event.opE (OpKind.equalOp "accuracy"),
    Event.opE (OpKind.castOp "accuracy"), Event.opE (OpKind.reduceMeanOp "accuracy")]
  (⟨input_x, input_y, train_flag, out6, scores, predictions, loss, accuracy⟩, g9)

/-- Console messages of a trace, in order. -/
def printsOf (evs : List Event) : List String :=
  evs.filterMap fun e => match e with
    | .printE m => some m
    | _ => none

/-- Variables created in a trace, in order. -/
def varsOf (evs : List Event) : List VarSpec :=
  evs.filterMap fun e => match e with
    | .varE v => some v
    | _ => none

/-- Convolution operations of a trace, projected to (strides, padding). -/
def convOpsNS (evs : List Event) : List (List Nat × String) :=
  evs.filterMap fun e => match e with
    | .opE (.conv2dOp _ st p) => some (st, p)
    | _ => none

/-- Number of residual-block additions in a trace (each block ends in exactly
one `tf.add`). -/
def numAdds (evs : List Event) : Nat :=
  (evs.filterMap fun e => match e with
    | .opE (.addOp _) => some ()
    | _ => none).length

/-- A batch-normalization node of the graph: the tensor it normalizes, the
parameters it was built with, and the tensor gating its `is_training`
argument. -/
structure BNode where
  input : Tensor
  decay : ℚ
  center : Bool
  scale : Bool
  gate : Tensor
  zeroDebias : Bool
deriving DecidableEq, Repr

/-- All batch-normalization nodes reachable in a tensor expression. -/
def bnNodes : Tensor → List BNode
  | .batchNorm x d c s g z => ⟨x, d, c, s, g, z⟩ :: (bnNodes x ++ bnNodes g)
  | .conv2d x _ _ _ => bnNodes x
  | .relu x => bnNodes x
  | .add a b => bnNodes a ++ bnNodes b
  | .avgPool2d x _ _ _ => bnNodes x
  | .flatten x => bnNodes x
  | .dense x _ _ _ _ => bnNodes x
  | .argmax x _ => bnNodes x
  | .softmaxCrossEntropyWithLogits a b => bnNodes a ++ bnNodes b
  | .reduceMean x => bnNodes x
  | .mulScalar _ x => bnNodes x
  | .equal a b => bnNodes a ++ bnNodes b
  | .cast x _ => bnNodes x
  | _ => []

/-- Scalar semantics of the arithmetic layer of the graph: `tf.add` (the `+`
at line 76) denotes addition and the scalar multiplication by
`l2_reg_lambda` denotes multiplication; every other node is interpreted by an
arbitrary environment `env`. -/
def sval (env : Tensor → ℚ) : Tensor → ℚ
  | .add a b => sval env a + sval env b
  | .mulScalar c t => c * sval env t
  | t => env t

/-! ## Explicit forms of a single residual block -/

/-- Explicit form of a non-first block (`block_num ≠ 0`, the `else` branch of
lines 127-128): two pre-activated 3x3 convolutions summed with the untouched
shortcut, and the `stride` variable left unchanged. -/
theorem resBlockStep_pos (tf x : Tensor) (s ch gid b : Nat) (hb : b ≠ 0) :
    resBlockStep tf x s ch gid b =
      (Tensor.add
        (Tensor.conv2d
          (Tensor.relu (Tensor.batchNorm
            (Tensor.conv2d (Tensor.relu (Tensor.batchNorm x (9/10) true true tf true))
              ⟨blockScope gid b "1", "weight", some [3, 3, lastDim x, ch],
                Init.truncatedNormal (1/10), VarKind.convWeight, true⟩
              [1, s, s, 1] "SAME")
            (9/10) true true tf true))
          ⟨blockScope gid b "2", "weight", some [3, 3, ch, ch],
            Init.truncatedNormal (1/10), VarKind.convWeight, true⟩
          [1, 1, 1, 1] "SAME")
        x,
       s,
       [Event.varE ⟨blockScope gid b "1", "beta", some [lastDim x], Init.zeros,
          VarKind.bnBeta, true⟩,
        Event.varE ⟨blockScope gid b "1", "gamma", some [lastDim x], Init.ones,
          VarKind.bnGamma, true⟩,
        Event.varE ⟨blockScope gid b "1", "moving_mean", some [lastDim x], Init.zeros,
          VarKind.bnMovingMean, false⟩,
        Event.varE ⟨blockScope gid b "1", "moving_variance", some [lastDim x], Init.ones,
          VarKind.bnMovingVariance, false⟩,
        Event.opE (OpKind.batchNormOp (blockScope gid b "1") (9/10) true true true),
        Event.opE (OpKind.reluOp (blockScope gid b "1")),
        Event.varE ⟨blockScope gid b "1", "weight", some [3, 3, lastDim x, ch],
          Init.truncatedNormal (1/10), VarKind.convWeight, true⟩,
        Event.opE (OpKind.conv2dOp (blockScope gid b "1") [1, s, s, 1] "SAME"),
        Event.varE ⟨blockScope gid b "2", "beta", some [ch], Init.zeros,
          VarKind.bnBeta, true⟩,
        Event.varE ⟨blockScope gid b "2", "gamma", some [ch], Init.ones,
          VarKind.bnGamma, true⟩,
        Event.varE ⟨blockScope gid b "2", "moving_mean", some [ch], Init.zeros,
          VarKind.bnMovingMean, false⟩,
        Event.varE ⟨blockScope gid b "2", "moving_variance", some [ch], Init.ones,
          VarKind.bnMovingVariance, false⟩,
        Event.opE (OpKind.batchNormOp (blockScope gid b "2") (9/10) true true true),
        Event.opE (OpKind.reluOp (blockScope gid b "2")),
        Event.varE ⟨blockScope gid b "2", "weight", some [3, 3, ch, ch],
          Init.truncatedNormal (1/10), VarKind.convWeight, true⟩,
        Event.opE (OpKind.conv2dOp (blockScope gid b "2") [1, 1, 1, 1] "SAME"),
        Event.opE (OpKind.addOp "")]) := by
  simp only [resBlockStep, tfBatchNorm, tfGetVariableConv, tfConv2d]
  rw [if_neg hb]
  rfl

/-- Explicit form of the first block (`block_num = 0`, the `then` branch of
lines 119-126): the transformation branch plus a 1x1 `VALID` projection of the
pre-activated input, and the `stride` variable reset to 1. -/
theorem resBlockStep_zero (tf x : Tensor) (s ch gid : Nat) :
    resBlockStep tf x s ch gid 0 =
      (Tensor.add
        (Tensor.conv2d
          (Tensor.relu (Tensor.batchNorm
            (Tensor.conv2d (Tensor.relu (Tensor.batchNorm x (9/10) true true tf true))
              ⟨blockScope gid 0 "1", "weight", some [3, 3, lastDim x, ch],
                Init.truncatedNormal (1/10), VarKind.convWeight, true⟩
              [1, s, s, 1] "SAME")
            (9/10) true true tf true))
          ⟨blockScope gid 0 "2", "weight", some [3, 3, ch, ch],
            Init.truncatedNormal (1/10), VarKind.convWeight, true⟩
          [1, 1, 1, 1] "SAME")
        (Tensor.conv2d (Tensor.relu (Tensor.batchNorm x (9/10) true true tf true))
          ⟨blockScope gid 0 "3", "weight", some [1, 1, lastDim x, ch],
            Init.truncatedNormal (1/10), VarKind.convWeight, true⟩
          [1, s, s, 1] "VALID"),
       1,
       [Event.varE ⟨blockScope gid 0 "1", "beta", some [lastDim x], Init.zeros,
          VarKind.bnBeta, true⟩,
        Event.varE ⟨blockScope gid 0 "1", "gamma", some [lastDim x], Init.ones,
          VarKind.bnGamma, true⟩,
        Event.varE ⟨blockScope gid 0 "1", "moving_mean", some [lastDim x], Init.zeros,
          VarKind.bnMovingMean, false⟩,
        Event.varE ⟨blockScope gid 0 "1", "moving_variance", some [lastDim x], Init.ones,
          VarKind.bnMovingVariance, false⟩,
        Event.opE (OpKind.batchNormOp (blockScope gid 0 "1") (9/10) true true true),
        Event.opE (OpKind.reluOp (blockScope gid 0 "1")),
        Event.varE ⟨blockScope gid 0 "1", "weight", some [3, 3, lastDim x, ch],
          Init.truncatedNormal (1/10), VarKind.convWeight, true⟩,
        Event.opE (OpKind.conv2dOp (blockScope gid 0 "1") [1, s, s, 1] "SAME"),
        Event.varE ⟨blockScope gid 0 "2", "beta", some [ch], Init.zeros,
          VarKind.bnBeta, true⟩,
        Event.varE ⟨blockScope gid 0 "2", "gamma", some [ch], Init.ones,
          VarKind.bnGamma, true⟩,
        Event.varE ⟨blockScope gid 0 "2", "moving_mean", some [ch], Init.zeros,
          VarKind.bnMovingMean, false⟩,
        Event.varE ⟨blockScope gid 0 "2", "moving_variance", some [ch], Init.ones,
          VarKind.bnMovingVariance, false⟩,
        Event.opE (OpKind.batchNormOp (blockScope gid 0 "2") (9/10) true true true),
        Event.opE (OpKind.reluOp (blockScope gid 0 "2")),
        Event.varE ⟨blockScope gid 0 "2", "weight", some [3, 3, ch, ch],
          Init.truncatedNormal (1/10), VarKind.convWeight, true⟩,
        Event.opE (OpKind.conv2dOp (blockScope gid 0 "2") [1, 1, 1, 1] "SAME"),
        Event.varE ⟨blockScope gid 0 "3", "weight", some [1, 1, lastDim x, ch],
          Init.truncatedNormal (1/10), VarKind.convWeight, true⟩,
        Event.opE (OpKind.conv2dOp (blockScope gid 0 "3") [1, s, s, 1] "VALID"),
        Event.opE (OpKind.addOp (blockScope gid 0 "3"))]) := by
  rfl

/-! ## Trace projections distribute over append -/

theorem printsOf_append (a b : List Event) :
    printsOf (a ++ b) = printsOf a ++ printsOf b :=
  List.filterMap_append a b _

theorem varsOf_append (a b : List Event) :
    varsOf (a ++ b) = varsOf a ++ varsOf b :=
  List.filterMap_append a b _

theorem convOpsNS_append (a b : List Event) :
    convOpsNS (a ++ b) = convOpsNS a ++ convOpsNS b :=
  List.filterMap_append a b _

theorem numAdds_append (a b : List Event) :
    numAdds (a ++ b) = numAdds a + numAdds b := by
  simp [numAdds, List.filterMap_append]

theorem trainableVariables_append (a b : List Event) :
    trainableVariables (a ++ b) = trainableVariables a ++ trainableVariables b :=
  List.filterMap_append a b _

/-! ## Group-level facts, by induction on the loop -/

/-- A residual block prints nothing. -/
theorem printsOf_resBlockStep (tf x : Tensor) (s ch gid b : Nat) :
    printsOf (resBlockStep tf x s ch gid b).2.2 = [] := by
  by_cases hb : b = 0
  · subst hb; rw [resBlockStep_zero]; rfl
  · rw [resBlockStep_pos tf x s ch gid b hb]; rfl

/-- A residual group prints nothing. -/
theorem printsOf_resGroupAux (tf : Tensor) (ch gid : Nat) :
    ∀ (r : Nat) (x : Tensor) (s b : Nat),
      printsOf (resGroupAux tf x s ch gid b r).2 = [] := by
  intro r
  induction r with
  | zero => intro x s b; rfl
  | succ r ih =>
    intro x s b
    simp only [resGroupAux, printsOf_append, printsOf_resBlockStep, ih,
      List.nil_append]

/-- Each loop iteration builds exactly one `tf.add`. -/
theorem numAdds_resBlockStep (tf x : Tensor) (s ch gid b : Nat) :
    numAdds (resBlockStep tf x s ch gid b).2.2 = 1 := by
  by_cases hb : b = 0
  · subst hb; rw [resBlockStep_zero]; rfl
  · rw [resBlockStep_pos tf x s ch gid b hb]; rfl

/-- A group of `r` blocks builds exactly `r` residual additions: the number of
blocks stacked is the `remaining` argument, whatever the channel width. -/
theorem numAdds_resGroupAux (tf : Tensor) (ch gid : Nat) :
    ∀ (r : Nat) (x : Tensor) (s b : Nat),
      numAdds (resGroupAux tf x s ch gid b r).2 = r := by
  intro r
  induction r with
  | zero => intro x s b; rfl
  | succ r ih =>
    intro x s b
    simp only [resGroupAux, numAdds_append, numAdds_resBlockStep, ih]
    omega

/-- Every variable a block creates is either a convolution weight initialised
from a truncated normal with standard deviation 0.1, or a batch-norm
statistic/parameter. -/
theorem resBlockStep_vars_ok (tf x : Tensor) (s ch gid b : Nat) :
    ∀ v ∈ varsOf (resBlockStep tf x s ch gid b).2.2,
      v.kind = VarKind.convWeight → v.init = Init.truncatedNormal (1/10) := by
  by_cases hb : b = 0
  · subst hb
    rw [resBlockStep_zero]
    intro v hv
    simp only [varsOf, List.filterMap] at hv
    simp only [List.mem_cons, List.not_mem_nil, or_false] at hv
    rcases hv with rfl | rfl | rfl | rfl | rfl | rfl | rfl | rfl | rfl | rfl | rfl <;> simp
  · rw [resBlockStep_pos tf x s ch gid b hb]
    intro v hv
    simp only [varsOf, List.filterMap] at hv
    simp only [List.mem_cons, List.not_mem_nil, or_false] at hv
    rcases hv with rfl | rfl | rfl | rfl | rfl | rfl | rfl | rfl | rfl | rfl <;> simp

/-- Every variable a group creates that is a convolution weight is initialised
from a truncated normal with standard deviation 0.1. -/
theorem resGroupAux_vars_ok (tf : Tensor) (ch gid : Nat) :
    ∀ (r : Nat) (x : Tensor) (s b : Nat),
      ∀ v ∈ varsOf (resGroupAux tf x s ch gid b r).2,
        v.kind = VarKind.convWeight → v.init = Init.truncatedNormal (1/10) := by
  intro r
  induction r with
  | zero => intro x s b v hv; simp [resGroupAux, varsOf] at hv
  | succ r ih =>
    intro x s b v hv
    rw [resGroupAux] at hv
    simp only [varsOf_append, List.mem_append] at hv
    rcases hv with hv | hv
    · exact resBlockStep_vars_ok tf x s ch gid b v hv
    · exact ih _ _ _ v hv

/-- Line 126: after the first block the `stride` variable is 1. -/
theorem resBlockStep_stride_zero (tf x : Tensor) (s ch gid : Nat) :
    (resBlockStep tf x s ch gid 0).2.1 = 1 := by
  rw [resBlockStep_zero]

/-- Decomposition of a non-empty group: the first iteration runs at the
group's stride and block index 0; every remaining iteration runs with the
stride variable already reset to 1. -/
theorem res_group_succ (tf x : Tensor) (s ch gid n : Nat) (h : 0 < n) :
    res_group tf x s ch n gid =
      ((resGroupAux tf (resBlockStep tf x s ch gid 0).1 1 ch gid 1 (n - 1)).1,
       (resBlockStep tf x s ch gid 0).2.2 ++
         (resGroupAux tf (resBlockStep tf x s ch gid 0).1 1 ch gid 1 (n - 1)).2) := by
  cases n with
  | zero => omega
  | succ m =>
    show resGroupAux tf x s ch gid 0 (m + 1) = _
    rw [resGroupAux]
    simp only [resBlockStep_stride_zero, Nat.succ_sub_one]

/-- Convolutions of the first block: the two 3x3 convolutions (group stride,
then stride 1) and the 1x1 `VALID` projection at the group stride. -/
theorem convOpsNS_resBlockStep_zero (tf x : Tensor) (s ch gid : Nat) :
    convOpsNS (resBlockStep tf x s ch gid 0).2.2 =
      [([1, s, s, 1], "SAME"), ([1, 1, 1, 1], "SAME"), ([1, s, s, 1], "VALID")] := by
  rw [resBlockStep_zero]
  rfl

/-- Convolutions of all iterations after the first: every block contributes
exactly two convolutions, both with strides [1,1,1,1] and padding "SAME" — in
particular no `VALID` 1x1 projection appears. -/
theorem convOpsNS_resGroupAux_tail (tf : Tensor) (ch gid : Nat) :
    ∀ (r : Nat) (x : Tensor) (b : Nat),
      convOpsNS (resGroupAux tf x 1 ch gid (b + 1) r).2 =
        (List.replicate r [([1, 1, 1, 1], "SAME"), ([1, 1, 1, 1], "SAME")]).flatten := by
  intro r
  induction r with
  | zero => intro x b; rfl
  | succ r ih =>
    intro x b
    rw [resGroupAux, resBlockStep_pos tf x 1 ch gid (b + 1) (Nat.succ_ne_zero b)]
    simp only [convOpsNS_append, ih]
    simp [convOpsNS, List.replicate_succ]

/-! ## Top-level decomposition of the constructor -/

/-- The constructor's trace, segment by segment, in the order of source lines
37-81: placeholders, stem convolution, the three residual groups (strides 1,
2, 2 and channels `out_channels[i] * width_mult`), the final batch-norm plus
ReLU, pooling and flattening, the dense classifier with its argmax, and the
loss and accuracy nodes.  Nothing else is built. -/
theorem wideRes22Init_trace (img_dim n_classes in_channels : Nat)
    (out_channels : List Nat) (width_mult n_blocks : Nat)
    (learning_rate l2_reg_lambda : ℚ) :
    (wideRes22Init img_dim n_classes in_channels out_channels width_mult n_blocks
        learning_rate l2_reg_lambda).2 =
      (let input_x := Tensor.placeholder "input_x"
        [none, some img_dim, some img_dim, some in_channels]
      let train_flag := Tensor.placeholder "train_flag" []
      let w0 : VarSpec := ⟨"conv_0", "weight",
        some [3, 3, in_channels, out_channels.getD 0 0],
        Init.truncatedNormal (1/10), VarKind.convWeight, true⟩
      let stem := Tensor.conv2d input_x w0 [1, 1, 1, 1] "SAME"
      let r1 := res_group train_flag stem 1 (out_channels.getD 0 0 * width_mult)
        n_blocks 1
      let r2 := res_group train_flag r1.1 2 (out_channels.getD 1 0 * width_mult)
        n_blocks 2
      let r3 := res_group train_flag r2.1 2 (out_channels.getD 2 0 * width_mult)
        n_blocks 3
      [Event.printE "Initialising placeholders ...",
       Event.opE (OpKind.placeholderOp "input_x"
         [none, some img_dim, some img_dim, some in_channels]),
       Event.opE (OpKind.placeholderOp "input_y" [none, some n_classes]),
       Event.opE (OpKind.placeholderOp "train_flag" [])]
      ++ [Event.varE w0, Event.opE (OpKind.conv2dOp "conv_0" [1, 1, 1, 1] "SAME")]
      ++ [Event.printE "Computing Residual Group 1 ..."] ++ r1.2
      ++ [Event.printE "Computing Residual Group 2 ..."] ++ r2.2
      ++ [Event.printE "Computing Residual Group 3 ..."] ++ r3.2
      ++ [Event.varE ⟨"", "beta", some [lastDim r3.1], Init.zeros, VarKind.bnBeta, true⟩,
          Event.varE ⟨"", "gamma", some [lastDim r3.1], Init.ones, VarKind.bnGamma, true⟩,
          Event.varE ⟨"", "moving_mean", some [lastDim r3.1], Init.zeros,
            VarKind.bnMovingMean, false⟩,
          Event.varE ⟨"", "moving_variance", some [lastDim r3.1], Init.ones,
            VarKind.bnMovingVariance, false⟩,
          Event.opE (OpKind.batchNormOp "" (9/10) true true true),
          Event.opE (OpKind.reluOp "")]
      ++ [Event.printE "Pooling outputs and calculating scores ...",
          Event.opE (OpKind.avgPoolOp 8 [1, 1, 1, 1] "valid"),
          Event.opE OpKind.flattenOp]
      ++ [Event.varE ⟨"scores", "kernel", none, Init.glorotUniform,
            VarKind.denseKernel, true⟩,
          Event.varE ⟨"scores", "bias", some [n_classes], Init.zeros,
            VarKind.denseBias, true⟩,
          Event.opE (OpKind.denseOp n_classes true),
          Event.opE (OpKind.argmaxOp 1)]
      ++ [Event.opE OpKind.addNOp, Event.opE OpKind.softmaxCEOp,
          Event.opE (OpKind.reduceMeanOp "loss"),
          Event.opE (OpKind.mulScalarOp "loss"),
          Event.opE (OpKind.addOp "loss")]
      ++ [Event.opE (OpKind.argmaxOp 1), Event.opE (OpKind.equalOp "accuracy"),
          Event.opE (OpKind.castOp "accuracy"),
          Event.opE (OpKind.reduceMeanOp "accuracy")]) := by
  simp only [wideRes22Init, tfGetVariableConv, tfConv2d, tfBatchNorm]
  simp [List.append_assoc]

/-- The fields the constructor stores: the placeholders, the flattened pooled
output, the dense scores, their argmax, and the loss and accuracy nodes built
from them (lines 38-81).  `tvars` is the value of `tf.trainable_variables()`
at line 74: every trainable variable created up to that point. -/
theorem wideRes22Init_fst (img_dim n_classes in_channels : Nat)
    (out_channels : List Nat) (width_mult n_blocks : Nat)
    (learning_rate l2_reg_lambda : ℚ) :
    (wideRes22Init img_dim n_classes in_channels out_channels width_mult n_blocks
        learning_rate l2_reg_lambda).1 =
      (let input_x := Tensor.placeholder "input_x"
        [none, some img_dim, some img_dim, some in_channels]
      let input_y := Tensor.placeholder "input_y" [none, some n_classes]
      let train_flag := Tensor.placeholder "train_flag" []
      let w0 : VarSpec := ⟨"conv_0", "weight",
        some [3, 3, in_channels, out_channels.getD 0 0],
        Init.truncatedNormal (1/10), VarKind.convWeight, true⟩
      let stem := Tensor.conv2d input_x w0 [1, 1, 1, 1] "SAME"
      let r1 := res_group train_flag stem 1 (out_channels.getD 0 0 * width_mult)
        n_blocks 1
      let r2 := res_group train_flag r1.1 2 (out_channels.getD 1 0 * width_mult)
        n_blocks 2
      let r3 := res_group train_flag r2.1 2 (out_channels.getD 2 0 * width_mult)
        n_blocks 3
      let flat := Tensor.flatten (Tensor.avgPool2d
        (Tensor.relu (Tensor.batchNorm r3.1 (9/10) true true train_flag true))
        8 [1, 1, 1, 1] "valid")
      let kernel : VarSpec := ⟨"scores", "kernel", none, Init.glorotUniform,
        VarKind.denseKernel, true⟩
      let bias : VarSpec := ⟨"scores", "bias", some [n_classes], Init.zeros,
        VarKind.denseBias, true⟩
      let scores := Tensor.dense flat true n_classes kernel bias
      let tvars := trainableVariables
        ([Event.printE "Initialising placeholders ...",
          Event.opE (OpKind.placeholderOp "input_x"
            [none, some img_dim, some img_dim, some in_channels]),
          Event.opE (OpKind.placeholderOp "input_y" [none, some n_classes]),
          Event.opE (OpKind.placeholderOp "train_flag" [])]
         ++ [Event.varE w0, Event.opE (OpKind.conv2dOp "conv_0" [1, 1, 1, 1] "SAME")]
         ++ [Event.printE "Computing Residual Group 1 ..."] ++ r1.2
         ++ [Event.printE "Computing Residual Group 2 ..."] ++ r2.2
         ++ [Event.printE "Computing Residual Group 3 ..."] ++ r3.2
         ++ [Event.varE ⟨"", "beta", some [lastDim r3.1], Init.zeros,
               VarKind.bnBeta, true⟩,
             Event.varE ⟨"", "gamma", some [lastDim r3.1], Init.ones,
               VarKind.bnGamma, true⟩,
             Event.varE ⟨"", "moving_mean", some [lastDim r3.1], Init.zeros,
               VarKind.bnMovingMean, false⟩,
             Event.varE ⟨"", "moving_variance", some [lastDim r3.1], Init.ones,
               VarKind.bnMovingVariance, false⟩,
             Event.opE (OpKind.batchNormOp "" (9/10) true true true),
             Event.opE (OpKind.reluOp "")]
         ++ [Event.printE "Pooling outputs and calculating scores ...",
             Event.opE (OpKind.avgPoolOp 8 [1, 1, 1, 1] "valid"),
             Event.opE OpKind.flattenOp]
         ++ [Event.varE kernel, Event.varE bias,
             Event.opE (OpKind.denseOp n_classes true),
             Event.opE (OpKind.argmaxOp 1)])
      ⟨input_x, input_y, train_flag, flat, scores, Tensor.argmax scores 1,
       Tensor.add (Tensor.reduceMean
           (Tensor.softmaxCrossEntropyWithLogits scores input_y))
         (Tensor.mulScalar l2_reg_lambda (Tensor.l2SumVars tvars)),
       Tensor.reduceMean (Tensor.cast
         (Tensor.equal (Tensor.argmax scores 1) (Tensor.argmax input_y 1))
         "float")⟩) := by
  simp only [wideRes22Init, tfGetVariableConv, tfConv2d, tfBatchNorm]
  simp [List.append_assoc]

/-! ## Batch-normalization nodes through the residual groups -/

/-- Every batch-norm node a block adds is built with decay 0.9, center and
scale on, `zero_debias_moving_mean` on, and gated on the group's train flag;
the remaining nodes were already in the input. -/
theorem bnNodes_resBlockStep (tf x : Tensor) (s ch gid b : Nat)
    (htf : bnNodes tf = []) :
    ∀ nd ∈ bnNodes (resBlockStep tf x s ch gid b).1,
      (nd.decay = 9/10 ∧ nd.center = true ∧ nd.scale = true ∧ nd.gate = tf ∧
        nd.zeroDebias = true) ∨ nd ∈ bnNodes x := by
  by_cases hb : b = 0
  · subst hb
    rw [resBlockStep_zero]
    intro nd hnd
    simp only [bnNodes, htf, List.append_nil, List.nil_append, List.mem_cons,
      List.mem_append] at hnd
    rcases hnd with (rfl | rfl | h) | (rfl | h)
    · exact Or.inl ⟨rfl, rfl, rfl, rfl, rfl⟩
    · exact Or.inl ⟨rfl, rfl, rfl, rfl, rfl⟩
    · exact Or.inr h
    · exact Or.inl ⟨rfl, rfl, rfl, rfl, rfl⟩
    · exact Or.inr h
  · rw [resBlockStep_pos tf x s ch gid b hb]
    intro nd hnd
    simp only [bnNodes, htf, List.append_nil, List.nil_append, List.mem_cons,
      List.mem_append] at hnd
    rcases hnd with (rfl | rfl | h) | h
    · exact Or.inl ⟨rfl, rfl, rfl, rfl, rfl⟩
    · exact Or.inl ⟨rfl, rfl, rfl, rfl, rfl⟩
    · exact Or.inr h
    · exact Or.inr h

/-- Every batch-norm node a residual group adds is built with decay 0.9,
center and scale on, `zero_debias_moving_mean` on, and gated on the train
flag; the remaining nodes were already in the group's input. -/
theorem bnNodes_resGroupAux (tf : Tensor) (ch gid : Nat) (htf : bnNodes tf = []) :
    ∀ (r : Nat) (x : Tensor) (s b : Nat),
      ∀ nd ∈ bnNodes (resGroupAux tf x s ch gid b r).1,
        (nd.decay = 9/10 ∧ nd.center = true ∧ nd.scale = true ∧ nd.gate = tf ∧
          nd.zeroDebias = true) ∨ nd ∈ bnNodes x := by
  intro r
  induction r with
  | zero => intro x s b nd hnd; exact Or.inr hnd
  | succ r ih =>
    intro x s b nd hnd
    rw [resGroupAux] at hnd
    rcases ih _ _ _ nd hnd with h | h
    · exact Or.inl h
    · exact bnNodes_resBlockStep tf x s ch gid b htf nd h

/-- A residual group prints nothing (`res_group` contains no `print`). -/
theorem printsOf_res_group (tf x : Tensor) (s ch n gid : Nat) :
    printsOf (res_group tf x s ch n gid).2 = [] :=
  printsOf_resGroupAux tf ch gid n x s 0

theorem printsOf_nil : printsOf [] = [] := rfl

theorem printsOf_cons_print (m : String) (l : List Event) :
    printsOf (Event.printE m :: l) = m :: printsOf l := rfl

theorem printsOf_cons_op (o : OpKind) (l : List Event) :
    printsOf (Event.opE o :: l) = printsOf l := rfl

theorem printsOf_cons_var (v : VarSpec) (l : List Event) :
    printsOf (Event.varE v :: l) = printsOf l := rfl

theorem varsOf_nil : varsOf [] = [] := rfl

theorem varsOf_cons_print (m : String) (l : List Event) :
    varsOf (Event.printE m :: l) = varsOf l := rfl

theorem varsOf_cons_op (o : OpKind) (l : List Event) :
    varsOf (Event.opE o :: l) = varsOf l := rfl

theorem varsOf_cons_var (v : VarSpec) (l : List Event) :
    varsOf (Event.varE v :: l) = v :: varsOf l := rfl

/-- Every batch-norm node reachable from the loss or accuracy tensors of the
constructed model was built with decay 0.9, center and scale on,
`zero_debias_moving_mean` on, and gated on the `train_flag` placeholder. -/
theorem bnNodes_wideRes22 (img_dim n_classes in_channels : Nat)
    (out_channels : List Nat) (width_mult n_blocks : Nat)
    (learning_rate l2_reg_lambda : ℚ) :
    ∀ nd ∈ bnNodes (wideRes22Init img_dim n_classes in_channels out_channels
        width_mult n_blocks learning_rate l2_reg_lambda).1.loss ++
      bnNodes (wideRes22Init img_dim n_classes in_channels out_channels
        width_mult n_blocks learning_rate l2_reg_lambda).1.accuracy,
      nd.decay = 9/10 ∧ nd.center = true ∧ nd.scale = true ∧
        nd.gate = Tensor.placeholder "train_flag" [] ∧ nd.zeroDebias = true := by
  intro nd hnd
  rw [wideRes22Init_fst] at hnd
  simp only [bnNodes, List.append_nil, List.nil_append, List.mem_append,
    List.mem_cons, List.not_mem_nil, or_false, false_or, or_self] at hnd
  have hgrp : ∀ nd' ∈ bnNodes (res_group (Tensor.placeholder "train_flag" [])
      (res_group (Tensor.placeholder "train_flag" [])
        (res_group (Tensor.placeholder "train_flag" [])
          (Tensor.conv2d (Tensor.placeholder "input_x"
              [none, some img_dim, some img_dim, some in_channels])
            ⟨"conv_0", "weight", some [3, 3, in_channels, out_channels.getD 0 0],
              Init.truncatedNormal (1/10), VarKind.convWeight, true⟩
            [1, 1, 1, 1] "SAME")
          1 (out_channels.getD 0 0 * width_mult) n_blocks 1).1
        2 (out_channels.getD 1 0 * width_mult) n_blocks 2).1
      2 (out_channels.getD 2 0 * width_mult) n_blocks 3).1,
      nd'.decay = 9/10 ∧ nd'.center = true ∧ nd'.scale = true ∧
        nd'.gate = Tensor.placeholder "train_flag" [] ∧ nd'.zeroDebias = true := by
    intro nd' hnd'
    rcases bnNodes_resGroupAux (Tensor.placeholder "train_flag" [])
        (out_channels.getD 2 0 * width_mult) 3 rfl n_blocks _ 2 0 nd' hnd' with
      h | h
    · exact h
    rcases bnNodes_resGroupAux (Tensor.placeholder "train_flag" [])
        (out_channels.getD 1 0 * width_mult) 2 rfl n_blocks _ 2 0 nd' h with
      h | h
    · exact h
    rcases bnNodes_resGroupAux (Tensor.placeholder "train_flag" [])
        (out_channels.getD 0 0 * width_mult) 1 rfl n_blocks _ 1 0 nd' h with
      h | h
    · exact h
    · simp [bnNodes] at h
  rcases hnd with rfl | h
  · exact ⟨rfl, rfl, rfl, rfl, rfl⟩
  · exact hgrp nd h

/-! ## Claims -/

/-- C9: for `n_blocks = 0` the loop body never runs, so `res_group` returns
its `input_x` argument unchanged and adds no operations, variables or prints
to the graph, for every input tensor, stride, channel count and group id. -/
theorem c9_empty_group_is_identity (tf x : Tensor) (s ch gid : Nat) :
    res_group tf x s ch 0 gid = (x, []) := rfl

/-- C2: every residual block computes `tf.add (F input) (shortcut input)`:
the transformation branch `F` is batch norm, ReLU, 3x3 convolution (group
stride), batch norm, ReLU, 3x3 convolution (stride 1) applied to the block
input, and the second summand is the block input itself for every block
after the first, and a 1x1 `VALID` convolution (applied to the batch-normed,
ReLU-activated block input) for the first block of a group. -/
theorem c2_block_output_is_residual_sum (tf x : Tensor) (s ch gid b : Nat) :
    (resBlockStep tf x s ch gid b).1 =
      Tensor.add
        (Tensor.conv2d
          (Tensor.relu (Tensor.batchNorm
            (Tensor.conv2d (Tensor.relu (Tensor.batchNorm x (9/10) true true tf true))
              ⟨blockScope gid b "1", "weight", some [3, 3, lastDim x, ch],
                Init.truncatedNormal (1/10), VarKind.convWeight, true⟩
              [1, s, s, 1] "SAME")
            (9/10) true true tf true))
          ⟨blockScope gid b "2", "weight", some [3, 3, ch, ch],
            Init.truncatedNormal (1/10), VarKind.convWeight, true⟩
          [1, 1, 1, 1] "SAME")
        (if b = 0 then
          Tensor.conv2d (Tensor.relu (Tensor.batchNorm x (9/10) true true tf true))
            ⟨blockScope gid b "3", "weight", some [1, 1, lastDim x, ch],
              Init.truncatedNormal (1/10), VarKind.convWeight, true⟩
            [1, s, s, 1] "VALID"
        else x) := by
  by_cases hb : b = 0
  · subst hb
    rw [resBlockStep_zero]
    simp
  · rw [resBlockStep_pos tf x s ch gid b hb]
    simp [hb]

/-- C3: the loss node is the mean softmax cross-entropy of the dense scores
against `input_y` plus `l2_reg_lambda` times the summed L2 losses of every
trainable variable created in the graph, and the accuracy node is the mean of
the cast equality between the argmax of the scores and the argmax of
`input_y`, both along axis 1. -/
theorem c3_loss_and_accuracy (img_dim n_classes in_channels : Nat)
    (out_channels : List Nat) (width_mult n_blocks : Nat)
    (learning_rate l2_reg_lambda : ℚ) :
    (wideRes22Init img_dim n_classes in_channels out_channels width_mult n_blocks
        learning_rate l2_reg_lambda).1.loss =
      Tensor.add
        (Tensor.reduceMean (Tensor.softmaxCrossEntropyWithLogits
          (wideRes22Init img_dim n_classes in_channels out_channels width_mult
            n_blocks learning_rate l2_reg_lambda).1.scores
          (wideRes22Init img_dim n_classes in_channels out_channels width_mult
            n_blocks learning_rate l2_reg_lambda).1.input_y))
        (Tensor.mulScalar l2_reg_lambda (Tensor.l2SumVars (trainableVariables
          (wideRes22Init img_dim n_classes in_channels out_channels width_mult
            n_blocks learning_rate l2_reg_lambda).2))) ∧
    (wideRes22Init img_dim n_classes in_channels out_channels width_mult n_blocks
        learning_rate l2_reg_lambda).1.accuracy =
      Tensor.reduceMean (Tensor.cast
        (Tensor.equal
          (Tensor.argmax (wideRes22Init img_dim n_classes in_channels out_channels
            width_mult n_blocks learning_rate l2_reg_lambda).1.scores 1)
          (Tensor.argmax (wideRes22Init img_dim n_classes in_channels out_channels
            width_mult n_blocks learning_rate l2_reg_lambda).1.input_y 1))
        "float") := by
  rw [wideRes22Init_fst, wideRes22Init_trace]
  constructor
  · simp [trainableVariables_append, trainableVariables, List.append_assoc]
  · simp

/-- C10: with `l2_reg_lambda = 0` (the source's default value for the
argument), the regularization term contributes nothing: under every scalar
interpretation of the graph, the loss node denotes exactly the mean softmax
cross-entropy of the scores against `input_y`. -/
theorem c10_zero_lambda_loss_is_mean_ce (img_dim n_classes in_channels : Nat)
    (out_channels : List Nat) (width_mult n_blocks : Nat) (learning_rate : ℚ)
    (env : Tensor → ℚ) :
    sval env (wideRes22Init img_dim n_classes in_channels out_channels width_mult
        n_blocks learning_rate 0).1.loss =
      sval env (Tensor.reduceMean (Tensor.softmaxCrossEntropyWithLogits
        (wideRes22Init img_dim n_classes in_channels out_channels width_mult
          n_blocks learning_rate 0).1.scores
        (wideRes22Init img_dim n_classes in_channels out_channels width_mult
          n_blocks learning_rate 0).1.input_y)) := by
  rw [wideRes22Init_fst]
  simp [sval]

/-- C1: construction builds exactly these stages in this order — the three
placeholders `input_x`, `input_y`, `train_flag`; one stem convolution; the
three residual groups (strides 1, 2, 2); one batch-norm-plus-ReLU stage;
average pooling and flattening; one dense classifier producing the scores
(with their argmax); and finally the loss and accuracy computations.  The
first conjunct is the whole construction trace, so nothing else is built
(the `printE` entries are the constructor's progress messages, not graph
stages); the second conjunct is the wiring of the stored tensors, each stage
consuming the previous stage's output. -/
theorem c1_stage_order (img_dim n_classes in_channels : Nat)
    (out_channels : List Nat) (width_mult n_blocks : Nat)
    (learning_rate l2_reg_lambda : ℚ) :
    (let input_x := Tensor.placeholder "input_x"
      [none, some img_dim, some img_dim, some in_channels]
    let input_y := Tensor.placeholder "input_y" [none, some n_classes]
    let train_flag := Tensor.placeholder "train_flag" []
    let w0 : VarSpec := ⟨"conv_0", "weight",
      some [3, 3, in_channels, out_channels.getD 0 0],
      Init.truncatedNormal (1/10), VarKind.convWeight, true⟩
    let stem := Tensor.conv2d input_x w0 [1, 1, 1, 1] "SAME"
    let r1 := res_group train_flag stem 1 (out_channels.getD 0 0 * width_mult)
      n_blocks 1
    let r2 := res_group train_flag r1.1 2 (out_channels.getD 1 0 * width_mult)
      n_blocks 2
    let r3 := res_group train_flag r2.1 2 (out_channels.getD 2 0 * width_mult)
      n_blocks 3
    let flat := Tensor.flatten (Tensor.avgPool2d
      (Tensor.relu (Tensor.batchNorm r3.1 (9/10) true true train_flag true))
      8 [1, 1, 1, 1] "valid")
    let kernel : VarSpec := ⟨"scores", "kernel", none, Init.glorotUniform,
      VarKind.denseKernel, true⟩
    let bias : VarSpec := ⟨"scores", "bias", some [n_classes], Init.zeros,
      VarKind.denseBias, true⟩
    let scores := Tensor.dense flat true n_classes kernel bias
    (wideRes22Init img_dim n_classes in_channels out_channels width_mult n_blocks
        learning_rate l2_reg_lambda).2 =
      [Event.printE "Initialising placeholders ...",
       Event.opE (OpKind.placeholderOp "input_x"
         [none, some img_dim, some img_dim, some in_channels]),
       Event.opE (OpKind.placeholderOp "input_y" [none, some n_classes]),
       Event.opE (OpKind.placeholderOp "train_flag" [])]
      ++ [Event.varE w0, Event.opE (OpKind.conv2dOp "conv_0" [1, 1, 1, 1] "SAME")]
      ++ [Event.printE "Computing Residual Group 1 ..."] ++ r1.2
      ++ [Event.printE "Computing Residual Group 2 ..."] ++ r2.2
      ++ [Event.printE "Computing Residual Group 3 ..."] ++ r3.2
      ++ [Event.varE ⟨"", "beta", some [lastDim r3.1], Init.zeros, VarKind.bnBeta, true⟩,
          Event.varE ⟨"", "gamma", some [lastDim r3.1], Init.ones, VarKind.bnGamma, true⟩,
          Event.varE ⟨"", "moving_mean", some [lastDim r3.1], Init.zeros,
            VarKind.bnMovingMean, false⟩,
          Event.varE ⟨"", "moving_variance", some [lastDim r3.1], Init.ones,
            VarKind.bnMovingVariance, false⟩,
          Event.opE (OpKind.batchNormOp "" (9/10) true true true),
          Event.opE (OpKind.reluOp "")]
      ++ [Event.printE "Pooling outputs and calculating scores ...",
          Event.opE (OpKind.avgPoolOp 8 [1, 1, 1, 1] "valid"),
          Event.opE OpKind.flattenOp]
      ++ [Event.varE kernel, Event.varE bias,
          Event.opE (OpKind.denseOp n_classes true),
          Event.opE (OpKind.argmaxOp 1)]
      ++ [Event.opE OpKind.addNOp, Event.opE OpKind.softmaxCEOp,
          Event.opE (OpKind.reduceMeanOp "loss"),
          Event.opE (OpKind.mulScalarOp "loss"),
          Event.opE (OpKind.addOp "loss")]
      ++ [Event.opE (OpKind.argmaxOp 1), Event.opE (OpKind.equalOp "accuracy"),
          Event.opE (OpKind.castOp "accuracy"),
          Event.opE (OpKind.reduceMeanOp "accuracy")] ∧
    (wideRes22Init img_dim n_classes in_channels out_channels width_mult n_blocks
        learning_rate l2_reg_lambda).1.input_x = input_x ∧
    (wideRes22Init img_dim n_classes in_channels out_channels width_mult n_blocks
        learning_rate l2_reg_lambda).1.input_y = input_y ∧
    (wideRes22Init img_dim n_classes in_channels out_channels width_mult n_blocks
        learning_rate l2_reg_lambda).1.train_flag = train_flag ∧
    (wideRes22Init img_dim n_classes in_channels out_channels width_mult n_blocks
        learning_rate l2_reg_lambda).1.out = flat ∧
    (wideRes22Init img_dim n_classes in_channels out_channels width_mult n_blocks
        learning_rate l2_reg_lambda).1.scores = scores ∧
    (wideRes22Init img_dim n_classes in_channels out_channels width_mult n_blocks
        learning_rate l2_reg_lambda).1.predictions = Tensor.argmax scores 1) := by
  refine ⟨wideRes22Init_trace img_dim n_classes in_channels out_channels width_mult
    n_blocks learning_rate l2_reg_lambda, ?_, ?_, ?_, ?_, ?_, ?_⟩ <;>
    rw [wideRes22Init_fst]

/-- C5: the width multiplier scales channel width and nothing else.  With
`out_channels = (o0, o1, o2)`, group i is built with channel dimensionality
`out_channels[i-1] * width_mult` (first conjunct: the stored pooled output
shows the three group calls and their channel arguments); the number of
blocks a group stacks equals `n_blocks` whatever the channel argument, hence
whatever the multiplier (second conjunct); and `width_mult = 1` yields the
unwidened base channel counts `o0, o1, o2` (third conjunct). -/
theorem c5_width_mult_scales_channels_only (img_dim n_classes in_channels
    o0 o1 o2 width_mult n_blocks : Nat) (learning_rate l2_reg_lambda : ℚ)
    (tf x : Tensor) (s ch gid : Nat) :
    (let train_flag := Tensor.placeholder "train_flag" []
    let stem := Tensor.conv2d
      (Tensor.placeholder "input_x" [none, some img_dim, some img_dim, some in_channels])
      ⟨"conv_0", "weight", some [3, 3, in_channels, o0],
        Init.truncatedNormal (1/10), VarKind.convWeight, true⟩
      [1, 1, 1, 1] "SAME"
    (wideRes22Init img_dim n_classes in_channels [o0, o1, o2] width_mult n_blocks
        learning_rate l2_reg_lambda).1.out =
      Tensor.flatten (Tensor.avgPool2d (Tensor.relu (Tensor.batchNorm
        (res_group train_flag
          (res_group train_flag
            (res_group train_flag stem 1 (o0 * width_mult) n_blocks 1).1
            2 (o1 * width_mult) n_blocks 2).1
          2 (o2 * width_mult) n_blocks 3).1
        (9/10) true true train_flag true)) 8 [1, 1, 1, 1] "valid") ∧
    numAdds (res_group tf x s ch n_blocks gid).2 = n_blocks ∧
    (wideRes22Init img_dim n_classes in_channels [o0, o1, o2] 1 n_blocks
        learning_rate l2_reg_lambda).1.out =
      Tensor.flatten (Tensor.avgPool2d (Tensor.relu (Tensor.batchNorm
        (res_group train_flag
          (res_group train_flag
            (res_group train_flag stem 1 o0 n_blocks 1).1
            2 o1 n_blocks 2).1
          2 o2 n_blocks 3).1
        (9/10) true true train_flag true)) 8 [1, 1, 1, 1] "valid")) := by
  refine ⟨?_, numAdds_resGroupAux tf ch gid n_blocks x s 0, ?_⟩ <;>
    · rw [wideRes22Init_fst]
      simp

/-- C6: every convolution weight variable created during construction — the
stem weight, the two 3x3 weights of every residual block, and the 1x1
projection weight of each group's first block — is initialised from a
truncated normal with standard deviation 0.1. -/
theorem c6_conv_weights_truncated_normal (img_dim n_classes in_channels : Nat)
    (out_channels : List Nat) (width_mult n_blocks : Nat)
    (learning_rate l2_reg_lambda : ℚ) (v : VarSpec)
    (hv : v ∈ varsOf (wideRes22Init img_dim n_classes in_channels out_channels
      width_mult n_blocks learning_rate l2_reg_lambda).2)
    (hk : v.kind = VarKind.convWeight) :
    v.init = Init.truncatedNormal (1/10) := by
  rw [wideRes22Init_trace] at hv
  simp only [varsOf_append, varsOf_nil, varsOf_cons_print, varsOf_cons_op,
    varsOf_cons_var, List.mem_append, List.mem_cons, List.not_mem_nil, or_false,
    false_or, List.append_nil, List.nil_append] at hv
  rcases hv with ((((rfl | hv) | hv) | hv) | (rfl | rfl | rfl | rfl)) | (rfl | rfl)
  · rfl
  · exact resGroupAux_vars_ok _ _ _ _ _ _ _ v hv hk
  · exact resGroupAux_vars_ok _ _ _ _ _ _ _ v hv hk
  · exact resGroupAux_vars_ok _ _ _ _ _ _ _ v hv hk
  all_goals simp at hk

/-- C6 witness: the stem convolution weight of a concrete instantiation is a
convolution weight variable of the graph and carries the truncated-normal 0.1
initializer. -/
theorem c6_witness :
    (⟨"conv_0", "weight", some [3, 3, 3, 16], Init.truncatedNormal (1/10),
        VarKind.convWeight, true⟩ : VarSpec) ∈
      varsOf (wideRes22Init 8 10 3 [16, 32, 64] 1 1 (1/100) 0).2 ∧
    (⟨"conv_0", "weight", some [3, 3, 3, 16], Init.truncatedNormal (1/10),
        VarKind.convWeight, true⟩ : VarSpec).init = Init.truncatedNormal (1/10) :=
  ⟨by
    rw [wideRes22Init_trace]
    simp only [varsOf_append, varsOf_nil, varsOf_cons_print, varsOf_cons_op,
      varsOf_cons_var, List.mem_append, List.mem_cons]
    tauto,
   c6_conv_weights_truncated_normal 8 10 3 [16, 32, 64] 1 1 (1/100) 0 _
     (by
       rw [wideRes22Init_trace]
       simp only [varsOf_append, varsOf_nil, varsOf_cons_print, varsOf_cons_op,
         varsOf_cons_var, List.mem_append, List.mem_cons]
       tauto) rfl⟩

/-- C7 counterexample: the claim says construction produces no console
output, but at a concrete instantiation the constructor's trace contains
console prints (the `print` calls at lines 37, 49, 53, 56 and 64). -/
theorem c7_counterexample_console_output :
    printsOf (wideRes22Init 8 10 3 [16, 32, 64] 1 1 (1/100) 0).2 ≠ [] := by
  rw [wideRes22Init_trace]
  simp only [printsOf_append, printsOf_res_group, printsOf_nil, printsOf_cons_print,
    printsOf_cons_op, printsOf_cons_var, List.append_nil, List.nil_append]
  simp

/-- C7 amended: for every choice of constructor arguments, graph construction
performs no I/O other than console output, and its console output is exactly
these five fixed progress messages; no file or network channel is modelled
because the source touches none. -/
theorem c7_amended_only_progress_prints (img_dim n_classes in_channels : Nat)
    (out_channels : List Nat) (width_mult n_blocks : Nat)
    (learning_rate l2_reg_lambda : ℚ) :
    printsOf (wideRes22Init img_dim n_classes in_channels out_channels width_mult
        n_blocks learning_rate l2_reg_lambda).2 =
      ["Initialising placeholders ...", "Computing Residual Group 1 ...",
       "Computing Residual Group 2 ...", "Computing Residual Group 3 ...",
       "Pooling outputs and calculating scores ..."] := by
  rw [wideRes22Init_trace]
  simp only [printsOf_append, printsOf_res_group, printsOf_nil, printsOf_cons_print,
    printsOf_cons_op, printsOf_cons_var, List.append_nil, List.nil_append]
  rfl

/-- C4: batch normalization is in pre-activation position throughout.  First
conjunct: every batch-norm node in the constructed graph is built with decay
0.9, center and scale on, `zero_debias_moving_mean` on, and gated on the
`train_flag` placeholder.  Second conjunct: inside a residual block each of
the two 3x3 convolutions is applied to `relu(batch_norm(.))` of its input
(the 1x1 shortcut projection, itself excepted from the claim, takes the
batch-normed ReLU-activated block input; the stem convolution takes the raw
placeholder, as the third conjunct shows).  Third conjunct: one final
batch-norm followed by ReLU is applied to the third residual group's output
before pooling. -/
theorem c4_preactivation_batchnorm (img_dim n_classes in_channels : Nat)
    (out_channels : List Nat) (width_mult n_blocks : Nat)
    (learning_rate l2_reg_lambda : ℚ) (nd : BNode) (tf x' : Tensor)
    (s' ch gid b : Nat) :
    (nd ∈ bnNodes (wideRes22Init img_dim n_classes in_channels out_channels
        width_mult n_blocks learning_rate l2_reg_lambda).1.loss ++
      bnNodes (wideRes22Init img_dim n_classes in_channels out_channels
        width_mult n_blocks learning_rate l2_reg_lambda).1.accuracy →
      nd.decay = 9/10 ∧ nd.center = true ∧ nd.scale = true ∧
        nd.gate = (wideRes22Init img_dim n_classes in_channels out_channels
          width_mult n_blocks learning_rate l2_reg_lambda).1.train_flag ∧
        nd.zeroDebias = true) ∧
    (resBlockStep tf x' s' ch gid b).1 =
      Tensor.add
        (Tensor.conv2d
          (Tensor.relu (Tensor.batchNorm
            (Tensor.conv2d (Tensor.relu (Tensor.batchNorm x' (9/10) true true tf true))
              ⟨blockScope gid b "1", "weight", some [3, 3, lastDim x', ch],
                Init.truncatedNormal (1/10), VarKind.convWeight, true⟩
              [1, s', s', 1] "SAME")
            (9/10) true true tf true))
          ⟨blockScope gid b "2", "weight", some [3, 3, ch, ch],
            Init.truncatedNormal (1/10), VarKind.convWeight, true⟩
          [1, 1, 1, 1] "SAME")
        (if b = 0 then
          Tensor.conv2d (Tensor.relu (Tensor.batchNorm x' (9/10) true true tf true))
            ⟨blockScope gid b "3", "weight", some [1, 1, lastDim x', ch],
              Init.truncatedNormal (1/10), VarKind.convWeight, true⟩
            [1, s', s', 1] "VALID"
        else x') ∧
    (wideRes22Init img_dim n_classes in_channels out_channels width_mult n_blocks
        learning_rate l2_reg_lambda).1.out =
      Tensor.flatten (Tensor.avgPool2d
        (Tensor.relu (Tensor.batchNorm
          (res_group (Tensor.placeholder "train_flag" [])
            (res_group (Tensor.placeholder "train_flag" [])
              (res_group (Tensor.placeholder "train_flag" [])
                (Tensor.conv2d (Tensor.placeholder "input_x"
                    [none, some img_dim, some img_dim, some in_channels])
                  ⟨"conv_0", "weight", some [3, 3, in_channels, out_channels.getD 0 0],
                    Init.truncatedNormal (1/10), VarKind.convWeight, true⟩
                  [1, 1, 1, 1] "SAME")
                1 (out_channels.getD 0 0 * width_mult) n_blocks 1).1
              2 (out_channels.getD 1 0 * width_mult) n_blocks 2).1
            2 (out_channels.getD 2 0 * width_mult) n_blocks 3).1
          (9/10) true true (Tensor.placeholder "train_flag" []) true))
        8 [1, 1, 1, 1] "valid") := by
  refine ⟨?_, ?_, ?_⟩
  · intro hnd
    have h := bnNodes_wideRes22 img_dim n_classes in_channels out_channels
      width_mult n_blocks learning_rate l2_reg_lambda nd hnd
    have htf : (wideRes22Init img_dim n_classes in_channels out_channels
        width_mult n_blocks learning_rate l2_reg_lambda).1.train_flag =
        Tensor.placeholder "train_flag" [] := by
      rw [wideRes22Init_fst]
    rw [htf]
    exact h
  · by_cases hb : b = 0
    · subst hb
      rw [resBlockStep_zero]
      simp
    · rw [resBlockStep_pos tf x' s' ch gid b hb]
      simp [hb]
  · rw [wideRes22Init_fst]

/-- C4 witness: at a concrete instantiation with no residual blocks, the one
batch-norm node of the graph (the final pre-pooling one, normalizing the stem
convolution's output) carries decay 0.9, center, scale, the train-flag gate
and `zero_debias_moving_mean`. -/
theorem c4_witness :
    (⟨Tensor.conv2d (Tensor.placeholder "input_x" [none, some 8, some 8, some 3])
        ⟨"conv_0", "weight", some [3, 3, 3, 16], Init.truncatedNormal (1/10),
          VarKind.convWeight, true⟩
        [1, 1, 1, 1] "SAME",
      9/10, true, true, Tensor.placeholder "train_flag" [], true⟩ : BNode).decay = 9/10 ∧
    (⟨Tensor.conv2d (Tensor.placeholder "input_x" [none, some 8, some 8, some 3])
        ⟨"conv_0", "weight", some [3, 3, 3, 16], Init.truncatedNormal (1/10),
          VarKind.convWeight, true⟩
        [1, 1, 1, 1] "SAME",
      9/10, true, true, Tensor.placeholder "train_flag" [], true⟩ : BNode).center = true ∧
    (⟨Tensor.conv2d (Tensor.placeholder "input_x" [none, some 8, some 8, some 3])
        ⟨"conv_0", "weight", some [3, 3, 3, 16], Init.truncatedNormal (1/10),
          VarKind.convWeight, true⟩
        [1, 1, 1, 1] "SAME",
      9/10, true, true, Tensor.placeholder "train_flag" [], true⟩ : BNode).scale = true ∧
    (⟨Tensor.conv2d (Tensor.placeholder "input_x" [none, some 8, some 8, some 3])
        ⟨"conv_0", "weight", some [3, 3, 3, 16], Init.truncatedNormal (1/10),
          VarKind.convWeight, true⟩
        [1, 1, 1, 1] "SAME",
      9/10, true, true, Tensor.placeholder "train_flag" [], true⟩ : BNode).gate =
      (wideRes22Init 8 10 3 [16, 32, 64] 1 0 (1/100) 0).1.train_flag ∧
    (⟨Tensor.conv2d (Tensor.placeholder "input_x" [none, some 8, some 8, some 3])
        ⟨"conv_0", "weight", some [3, 3, 3, 16], Init.truncatedNormal (1/10),
          VarKind.convWeight, true⟩
        [1, 1, 1, 1] "SAME",
      9/10, true, true, Tensor.placeholder "train_flag" [], true⟩ : BNode).zeroDebias =
      true :=
  (c4_preactivation_batchnorm 8 10 3 [16, 32, 64] 1 0 (1/100) 0 _
    (Tensor.placeholder "train_flag" []) (Tensor.placeholder "z" [some 8]) 1 8 5 3).1
    (by rw [wideRes22Init_fst]; simp [bnNodes]; rfl)

/-- C8: within a non-empty residual group, downsampling and channel
projection happen only in the first block.  First conjunct: the group is the
first iteration (block index 0, group stride) followed by the remaining
iterations with the stride variable equal to 1.  Second conjunct: the first
iteration resets the stride variable to 1.  Third conjunct: the first block's
convolutions are the stride-`s` 3x3, the stride-1 3x3, and the stride-`s` 1x1
`VALID` projection on the shortcut path.  Fourth conjunct: a block at any
nonzero index adds its transformation branch to the untouched shortcut (an
identity shortcut).  Fifth conjunct: across all iterations after the first,
the convolutions are exactly two per block, all with strides [1,1,1,1] and
padding "SAME" — no projection is built. -/
theorem c8_downsample_only_first_block (tf x x' : Tensor) (s ch gid n b : Nat)
    (hn : 0 < n) (hb : b ≠ 0) :
    res_group tf x s ch n gid =
      ((resGroupAux tf (resBlockStep tf x s ch gid 0).1 1 ch gid 1 (n - 1)).1,
       (resBlockStep tf x s ch gid 0).2.2 ++
         (resGroupAux tf (resBlockStep tf x s ch gid 0).1 1 ch gid 1 (n - 1)).2) ∧
    (resBlockStep tf x s ch gid 0).2.1 = 1 ∧
    convOpsNS (resBlockStep tf x s ch gid 0).2.2 =
      [([1, s, s, 1], "SAME"), ([1, 1, 1, 1], "SAME"), ([1, s, s, 1], "VALID")] ∧
    (resBlockStep tf x' 1 ch gid b).1 =
      Tensor.add
        (Tensor.conv2d
          (Tensor.relu (Tensor.batchNorm
            (Tensor.conv2d (Tensor.relu (Tensor.batchNorm x' (9/10) true true tf true))
              ⟨blockScope gid b "1", "weight", some [3, 3, lastDim x', ch],
                Init.truncatedNormal (1/10), VarKind.convWeight, true⟩
              [1, 1, 1, 1] "SAME")
            (9/10) true true tf true))
          ⟨blockScope gid b "2", "weight", some [3, 3, ch, ch],
            Init.truncatedNormal (1/10), VarKind.convWeight, true⟩
          [1, 1, 1, 1] "SAME")
        x' ∧
    convOpsNS (resGroupAux tf x' 1 ch gid 1 (n - 1)).2 =
      (List.replicate (n - 1) [([1, 1, 1, 1], "SAME"), ([1, 1, 1, 1], "SAME")]).flatten := by
  refine ⟨res_group_succ tf x s ch gid n hn,
    resBlockStep_stride_zero tf x s ch gid,
    convOpsNS_resBlockStep_zero tf x s ch gid, ?_,
    convOpsNS_resGroupAux_tail tf ch gid (n - 1) x' 0⟩
  rw [resBlockStep_pos tf x' 1 ch gid b hb]

/-- C8 witness: a concrete one-block group at stride 2, checked at block
index 3 for the identity-shortcut conjunct. -/
theorem c8_witness :
    0 < 1 ∧ (3 : Nat) ≠ 0 ∧
    (res_group (Tensor.placeholder "train_flag" []) (Tensor.placeholder "x" [some 4])
        2 8 1 5 =
      ((resGroupAux (Tensor.placeholder "train_flag" [])
          (resBlockStep (Tensor.placeholder "train_flag" [])
            (Tensor.placeholder "x" [some 4]) 2 8 5 0).1 1 8 5 1 (1 - 1)).1,
       (resBlockStep (Tensor.placeholder "train_flag" [])
          (Tensor.placeholder "x" [some 4]) 2 8 5 0).2.2 ++
         (resGroupAux (Tensor.placeholder "train_flag" [])
           (resBlockStep (Tensor.placeholder "train_flag" [])
             (Tensor.placeholder "x" [some 4]) 2 8 5 0).1 1 8 5 1 (1 - 1)).2) ∧
     (resBlockStep (Tensor.placeholder "train_flag" [])
        (Tensor.placeholder "x" [some 4]) 2 8 5 0).2.1 = 1 ∧
     convOpsNS (resBlockStep (Tensor.placeholder "train_flag" [])
        (Tensor.placeholder "x" [some 4]) 2 8 5 0).2.2 =
       [([1, 2, 2, 1], "SAME"), ([1, 1, 1, 1], "SAME"), ([1, 2, 2, 1], "VALID")] ∧
     (resBlockStep (Tensor.placeholder "train_flag" [])
        (Tensor.placeholder "z" [some 8]) 1 8 5 3).1 =
       Tensor.add
         (Tensor.conv2d
           (Tensor.relu (Tensor.batchNorm
             (Tensor.conv2d (Tensor.relu (Tensor.batchNorm
                 (Tensor.placeholder "z" [some 8]) (9/10) true true
                 (Tensor.placeholder "train_flag" []) true))
               ⟨blockScope 5 3 "1", "weight",
                 some [3, 3, lastDim (Tensor.placeholder "z" [some 8]), 8],
                 Init.truncatedNormal (1/10), VarKind.convWeight, true⟩
               [1, 1, 1, 1] "SAME")
             (9/10) true true (Tensor.placeholder "train_flag" []) true))
           ⟨blockScope 5 3 "2", "weight", some [3, 3, 8, 8],
             Init.truncatedNormal (1/10), VarKind.convWeight, true⟩
           [1, 1, 1, 1] "SAME")
         (Tensor.placeholder "z" [some 8]) ∧
     convOpsNS (resGroupAux (Tensor.placeholder "train_flag" [])
        (Tensor.placeholder "z" [some 8]) 1 8 5 1 (1 - 1)).2 =
       (List.replicate (1 - 1) [([1, 1, 1, 1], "SAME"), ([1, 1, 1, 1], "SAME")]).flatten) :=
  ⟨by decide, by decide,
   c8_downsample_only_first_block (Tensor.placeholder "train_flag" [])
     (Tensor.placeholder "x" [some 4]) (Tensor.placeholder "z" [some 8])
     2 8 5 1 3 (by decide) (by decide)⟩

end TFModels
